import Mathlib

/-!
Shallow embedding of the FirstWork form-builder core: the schema model
(src/types/form.ts), the question-definition validators (validateQuestion in
src/hooks/useAutoSave.ts and the variant appended to
src/components/FormRenderer/FormRenderer.tsx, isQuestionValid in src/App.tsx),
the debounced auto-save reconciler (debouncedSave in src/hooks/useAutoSave.ts),
the QuestionBuilder edit pipeline
(src/components/FormBuilder/QuestionBuilder.tsx), the derived valid-question
view (getValidForm in src/App.tsx) and the persistence gateway operation
saveQuestion (src/services/formService.ts).
-/

namespace FirstWork

/-- QuestionType from src/types/form.ts: the three concrete question kinds. -/
inductive QuestionType
  | text
  | number
  | select
deriving DecidableEq, Repr

/-- ValidationRule from src/types/form.ts; every field is optional and absence
means unconstrained.  Numeric bounds are modelled as integers (the UI parses
them with parseInt). -/
structure ValidationRule where
  required : Option Bool := none
  minLength : Option Int := none
  maxLength : Option Int := none
  min : Option Int := none
  max : Option Int := none
  pattern : Option String := none
  isParagraph : Option Bool := none
deriving DecidableEq, Repr

/-- The Option record from src/types/form.ts (a select choice); renamed QOption
because Option is taken by the Lean prelude. -/
structure QOption where
  label : String
  value : String
deriving DecidableEq, Repr

/-- A prefill value: the TypeScript union string | number. -/
inductive QValue
  | str (s : String)
  | num (n : Int)
deriving DecidableEq, Repr

/-- Question from src/types/form.ts.  The declared type of the field q.type is
QuestionType, but the running code stores null in it (QuestionBuilder
initialises localQuestion with type null), so it is modelled as an Option. -/
structure Question where
  id : String
  type : Option QuestionType
  label : String
  placeholder : Option String := none
  validation : Option ValidationRule := none
  options : Option (List QOption) := none
  value : Option QValue := none
deriving DecidableEq, Repr

/-- Form from src/types/form.ts. -/
structure Form where
  id : String
  title : String
  questions : List Question
  createdAt : Nat
  updatedAt : Nat
deriving DecidableEq, Repr

/-- The result shape returned by the definition validators:
isValid plus an optional error message. -/
structure ValidationResult where
  isValid : Bool
  error : Option String := none
deriving DecidableEq, Repr

/-- Models the JS emptiness test on a trimmed string, as in the source guard
on question.label: true exactly when the string is empty or whitespace-only
(trimming it yields the empty string). -/
def isBlank (s : String) : Bool :=
  s.toList.all Char.isWhitespace

/-- validateQuestion from src/hooks/useAutoSave.ts (lines 16-35): rejects a
blank label, and a number question whose validation carries both min and max
with min greater than max.  No other checks are performed there. -/
def validateQuestion (q : Question) : ValidationResult :=
  if isBlank q.label then
    { isValid := false, error := some "Question title is required" }
  else
    match q.type with
    | some QuestionType.number =>
      match q.validation with
      | some v =>
        match v.min, v.max with
        | some mn, some mx =>
          if mn > mx then
            { isValid := false,
              error := some "Minimum value cannot be greater than maximum value" }
          else
            { isValid := true }
        | _, _ => { isValid := true }
      | none => { isValid := true }
    | _ => { isValid := true }

/-- The validateQuestion variant appended to
src/components/FormRenderer/FormRenderer.tsx (lines 210-240): same label and
number checks as the hook version, plus the select checks (options must be
present, non-empty, and every option must have a non-blank label and value). -/
def validateQuestionRenderer (q : Question) : ValidationResult :=
  if isBlank q.label then
    { isValid := false, error := some "Question title is required" }
  else
    match q.type with
    | some QuestionType.number =>
      match q.validation with
      | some v =>
        match v.min, v.max with
        | some mn, some mx =>
          if mn > mx then
            { isValid := false,
              error := some "Minimum value cannot be greater than maximum value" }
          else
            { isValid := true }
        | _, _ => { isValid := true }
      | none => { isValid := true }
    | some QuestionType.select =>
      match q.options with
      | none =>
        { isValid := false,
          error := some "Select questions must have at least one option" }
      | some opts =>
        if opts.isEmpty then
          { isValid := false,
            error := some "Select questions must have at least one option" }
        else if opts.any (fun o => isBlank o.label || isBlank o.value) then
          { isValid := false,
            error := some "All options must have both label and value" }
        else
          { isValid := true }
    | _ => { isValid := true }

/-- isQuestionValid from src/App.tsx (lines 18-39): a boolean gate checking a
non-blank label, a set type, and the number min/max ordering. -/
def isQuestionValid (q : Question) : Bool :=
  if isBlank q.label then
    false
  else
    match q.type with
    | none => false
    | some QuestionType.number =>
      match q.validation with
      | some v =>
        match v.min, v.max with
        | some mn, some mx => decide (mn ≤ mx)
        | _, _ => true
      | none => true
    | some _ => true

/-- getValidForm from src/App.tsx (lines 77-83), on the non-null form: the form
with its questions filtered through isQuestionValid. -/
def getValidForm (f : Form) : Form :=
  { f with questions := f.questions.filter isQuestionValid }

/-- A call to formService.saveQuestion as observed at the gateway: the formId
and the question payload passed to it. -/
structure SaveCall where
  formId : String
  question : Question
deriving DecidableEq, Repr

/-- The outcome of an awaited gateway call: the promise resolves with the
persisted question, or rejects with an error message. -/
inductive GatewayOutcome
  | success (persisted : Question)
  | failure (msg : String)
deriving DecidableEq, Repr

/-- The state owned by one useAutoSave instance (src/hooks/useAutoSave.ts):
saveTimeoutRef is modelled as the question captured by the pending setTimeout
callback, if one is scheduled; lastSavedValueRef as lastSaved; and the
AutoSaveState record as isSaving and error. -/
structure ReconcilerState where
  timer : Option Question := none
  lastSaved : Option Question := none
  isSaving : Bool := false
  error : Option String := none
deriving DecidableEq, Repr

/-- The state a fresh useAutoSave instance starts in: no pending timer, no
last saved value, not saving, no error. -/
def initialState : ReconcilerState := {}

/-- The observable result of one step of the reconciler: the new state, the
onUpdate calls emitted to the owning editor, and the gateway calls emitted. -/
structure StepResult where
  state : ReconcilerState
  updates : List Question := []
  calls : List SaveCall := []
deriving DecidableEq, Repr

/-- The synchronous body of debouncedSave in src/hooks/useAutoSave.ts
(lines 53-68): call onUpdate with the edited question, clear any pending
timeout, return early when the edit equals the last saved value
(JSON.stringify equality, modelled as structural equality), and otherwise
schedule the save callback.  Validation is NOT consulted here: it runs inside
the scheduled callback. -/
def debouncedSave (s : ReconcilerState) (q : Question) : StepResult :=
  if s.lastSaved = some q then
    { state := { s with timer := none }, updates := [q] }
  else
    { state := { s with timer := some q }, updates := [q] }

/-- The scheduled callback of debouncedSave (src/hooks/useAutoSave.ts lines
69-92), with the awaited formService.saveQuestion response folded in as the
outcome argument.  When no timer is pending, nothing happens.  When it fires:
validate the captured question; if invalid, set error and stop with no gateway
call; if valid, issue the gateway call, and on success record the SUBMITTED
question in lastSaved (the code ignores the resolved value) with error
cleared, on failure record the rejection message with lastSaved untouched.
The callback never throws: the await is wrapped in try/catch. -/
def timerFire (fid : String) (s : ReconcilerState) (outcome : GatewayOutcome) :
    StepResult :=
  match s.timer with
  | none => { state := s }
  | some q =>
    let v := validateQuestion q
    if v.isValid then
      match outcome with
      | GatewayOutcome.success _ =>
        { state := { s with timer := none, lastSaved := some q,
                            isSaving := false, error := none },
          calls := [{ formId := fid, question := q }] }
      | GatewayOutcome.failure msg =>
        { state := { s with timer := none, isSaving := false,
                            error := some msg },
          calls := [{ formId := fid, question := q }] }
    else
      { state := { s with timer := none,
                          error := some (v.error.getD "Invalid question") } }

/-- The synchronous body of the debouncedSave variant appended to
src/components/FormRenderer/FormRenderer.tsx (lines 257-289): clear the
pending timeout, call onUpdate, then validate BEFORE scheduling; when invalid,
set error and schedule nothing; when valid, schedule the save callback.  That
variant keeps no lastSaved value and performs no no-op suppression. -/
def debouncedSaveRenderer (s : ReconcilerState) (q : Question) : StepResult :=
  let v := validateQuestionRenderer q
  if v.isValid then
    { state := { s with timer := some q }, updates := [q] }
  else
    { state := { s with timer := none,
                        error := some (v.error.getD "Invalid question") },
      updates := [q] }

/-- The events a single reconciler can experience: a submitted edit, the
firing of its pending debounce timer together with the gateway response, and
teardown (the unmount cleanup effect of useAutoSave, lines 45-51, which clears
the pending timeout). -/
inductive Event
  | submit (q : Question)
  | fire (outcome : GatewayOutcome)
  | teardown
deriving Repr

/-- One step of the reconciler on one event. -/
def step (fid : String) (s : ReconcilerState) : Event → StepResult
  | Event.submit q => debouncedSave s q
  | Event.fire outcome => timerFire fid s outcome
  | Event.teardown => { state := { s with timer := none } }

/-- A run of the reconciler over a sequence of events, accumulating the
emitted onUpdate calls and gateway calls in order. -/
def run (fid : String) (s : ReconcilerState) : List Event → StepResult
  | [] => { state := s }
  | ev :: evs =>
    let r := step fid s ev
    let r' := run fid r.state evs
    { state := r'.state, updates := r.updates ++ r'.updates,
      calls := r.calls ++ r'.calls }

/-- validateTitle from src/components/FormBuilder/QuestionBuilder.tsx
(lines 53-58). -/
def validateTitle (title : String) : ValidationResult :=
  if isBlank title then
    { isValid := false, error := some "Question title is required" }
  else
    { isValid := true }

/-- validateQuestionType from src/components/FormBuilder/QuestionBuilder.tsx
(lines 30-35): a null type is invalid. -/
def validateQuestionType (t : Option QuestionType) : ValidationResult :=
  match t with
  | none => { isValid := false, error := some "Question type is required" }
  | some _ => { isValid := true }

/-- A single-field edit as performed by the QuestionBuilder inputs; applied to
the current localQuestion it yields the updatedQuestion of handleChange. -/
inductive QField
  | label (v : String)
  | qtype (v : Option QuestionType)
  | placeholder (v : Option String)
  | value (v : Option QValue)
deriving Repr

/-- Applying one field edit to a question, as the object spread in
handleChange does. -/
def applyField (q : Question) : QField → Question
  | QField.label v => { q with label := v }
  | QField.qtype v => { q with type := v }
  | QField.placeholder v => { q with placeholder := v }
  | QField.value v => { q with value := v }

/-- The state owned by one QuestionBuilder
(src/components/FormBuilder/QuestionBuilder.tsx): the local question copy, the
immediately-displayed title and type errors, and updateTimeoutRef modelled as
the question captured by the pending 500ms setTimeout callback, if any. -/
structure BuilderState where
  localQuestion : Question
  titleError : Option String := none
  typeError : Option String := none
  updateTimer : Option Question := none
deriving DecidableEq, Repr

/-- The observable result of one QuestionBuilder step: the new builder state
and the onUpdate calls emitted (none are emitted synchronously by
handleChange; they can only come from debouncedSave once the builder timer
fires). -/
structure BuilderStepResult where
  state : BuilderState
  updates : List Question := []
deriving DecidableEq, Repr

/-- The synchronous body of handleChange in QuestionBuilder.tsx (lines
81-122): build the updated question, store it locally, clear the pending
update timeout, validate the edited field immediately when it is the type or
the label (displaying the field error), and schedule the 500ms update timer
capturing the updated question.  No onUpdate call is made here. -/
def handleChange (s : BuilderState) (f : QField) : BuilderStepResult :=
  let updatedQuestion := applyField s.localQuestion f
  let s1 : BuilderState :=
    { s with localQuestion := updatedQuestion, updateTimer := none }
  let s2 : BuilderState :=
    match f with
    | QField.qtype v => { s1 with typeError := (validateQuestionType v).error }
    | QField.label v => { s1 with titleError := (validateTitle v).error }
    | _ => s1
  { state := { s2 with updateTimer := some updatedQuestion } }

/-- The 500ms callback scheduled by handleChange (QuestionBuilder.tsx lines
106-121): re-validate title then type on the captured question; when either
fails, set that error and stop — debouncedSave (and hence onUpdate) is never
reached; when both pass, hand the question to the reconciler via
debouncedSave, whose immediate onUpdate call is the first propagation of the
edit to the owning editor. -/
def builderTimerFire (b : BuilderState) (r : ReconcilerState) :
    BuilderState × StepResult :=
  match b.updateTimer with
  | none => (b, { state := r })
  | some q =>
    let b0 : BuilderState := { b with updateTimer := none }
    let tv := validateTitle q.label
    if tv.isValid then
      let yv := validateQuestionType q.type
      if yv.isValid then
        (b0, debouncedSave r q)
      else
        ({ b0 with typeError := yv.error }, { state := r })
    else
      ({ b0 with titleError := tv.error }, { state := r })

/-- The outcome of one formService.saveQuestion invocation: the store as left
in localStorage after the call, and the settled promise (the persisted
question on resolve, the message on reject). -/
structure SaveOutcome where
  store : List Form
  result : Except String Question
deriving Repr

/-- The store update performed by formService.saveQuestion
(src/services/formService.ts lines 69-84): find the first form whose id is
formId (findIndex) and, in place, append the question with the freshly
generated id to its questions and refresh its updatedAt; none when no form
matches. -/
def saveQuestionList (q : Question) (newId : String) (now : Nat)
    (formId : String) : List Form → Option (List Form)
  | [] => none
  | f :: rest =>
    if f.id = formId then
      some ({ f with questions := f.questions ++ [{ q with id := newId }],
                     updatedAt := now } :: rest)
    else
      match saveQuestionList q newId now formId rest with
      | none => none
      | some rest' => some (f :: rest')

/-- formService.saveQuestion (src/services/formService.ts lines 61-89), with
its sources of nondeterminism lifted to arguments: shouldFail for the
simulated random failure, newId for the nanoid, now for Date.now.  On the
simulated failure the promise rejects and the store is untouched; otherwise
the form is looked up, a missing form rejects with Form not found leaving the
store untouched, and a hit appends the question under its fresh id and
resolves with that persisted question. -/
def saveQuestion (shouldFail : Bool) (store : List Form) (formId : String)
    (q : Question) (newId : String) (now : Nat) : SaveOutcome :=
  if shouldFail then
    { store := store, result := Except.error "Failed to save question" }
  else
    match saveQuestionList q newId now formId store with
    | some store' =>
      { store := store', result := Except.ok { q with id := newId } }
    | none =>
      { store := store, result := Except.error "Form not found" }

/-- A whitespace-only-label question used to exercise the invalid-edit path of
the primary hook. -/
def q1c : Question :=
  { id := "q1", type := some QuestionType.text, label := "   " }

/-- A valid text question as submitted locally, before any server id is
assigned. -/
def q2c : Question :=
  { id := "local1", type := some QuestionType.text, label := "Name" }

/-- A one-form store holding the form the reconciler saves into. -/
def store2c : List Form :=
  [{ id := "f1", title := "T", questions := [], createdAt := 0, updatedAt := 0 }]

/-- The question as the gateway persists it: the submitted one under the
server-assigned id. -/
def p2c : Question := { q2c with id := "srv1" }

/-- First edit of a rapid pair: a valid question labelled A. -/
def e3a : Question :=
  { id := "q3", type := some QuestionType.text, label := "A" }

/-- Second edit of the pair, arriving inside the debounce window, with a
blank label. -/
def e3b : Question :=
  { id := "q3", type := some QuestionType.text, label := "" }

/-- Second edit of the pair in the witness run: valid, labelled B. -/
def e3w : Question :=
  { id := "q3", type := some QuestionType.text, label := "B" }

/-- A valid question used for the no-op suppression run. -/
def q4c : Question :=
  { id := "q4", type := some QuestionType.text, label := "Same" }

/-- A valid question whose save attempt is made to fail. -/
def q5c : Question :=
  { id := "q5", type := some QuestionType.number, label := "Age" }

/-- A question whose type is unset but whose label is fine. -/
def q6c : Question := { id := "q6", type := none, label := "Name" }

/-- A builder whose local question currently has a valid title. -/
def b7c : BuilderState :=
  { localQuestion := { id := "q7", type := some QuestionType.text, label := "Hello" } }

/-- A builder whose local question has a valid title but an unset type, the
state QuestionBuilder itself starts in (it initialises localQuestion with a
null type). -/
def b7d : BuilderState :=
  { localQuestion := { id := "q7", type := none, label := "Hello" } }

/-- A question pending in a timer at teardown time. -/
def q8c : Question :=
  { id := "q8", type := some QuestionType.text, label := "Pending" }

/-- A type-unset question with a healthy label, kept by validateQuestion but
dropped by the derived view. -/
def q9c : Question := { id := "q9", type := none, label := "Name" }

/-- A form holding exactly the question above. -/
def f9c : Form :=
  { id := "f9", title := "T", questions := [q9c], createdAt := 3, updatedAt := 4 }

/-- A two-form store for the frame-effect witness. -/
def store10c : List Form :=
  [{ id := "fA", title := "A", questions := [], createdAt := 1, updatedAt := 1 },
   { id := "fB", title := "B",
     questions := [{ id := "qb", type := some QuestionType.text, label := "Old" }],
     createdAt := 2, updatedAt := 2 }]

/-- The question appended in the frame-effect witness. -/
def q10c : Question :=
  { id := "tmp", type := some QuestionType.text, label := "New" }

/-- A reconciler whose timer is idle emits no gateway calls on any sequence of
timer-fire events, and its timer stays idle. -/
theorem run_fires_idle (fid : String) (s : ReconcilerState)
    (posts : List Event) (ht : s.timer = none)
    (h : ∀ ev ∈ posts, ∃ outcome, ev = Event.fire outcome) :
    (run fid s posts).calls = [] ∧ (run fid s posts).state.timer = none := by
  induction posts generalizing s with
  | nil => simp [run, ht]
  | cons ev evs ih =>
    obtain ⟨outcome, rfl⟩ := h ev (List.mem_cons_self ev evs)
    have hstep : step fid s (Event.fire outcome) = { state := s } := by
      simp [step, timerFire, ht]
    have hrest := ih s ht (fun e he => h e (List.mem_cons_of_mem _ he))
    simp [run, hstep, hrest.1, hrest.2, ht]

/-- C4: submitting a question structurally identical to the last acknowledged
value schedules no debounce timer and produces no gateway call, even once the
(absent) timer would have fired. -/
theorem C4_noop_suppression (fid : String) (s : ReconcilerState)
    (q : Question) (outcome : GatewayOutcome) (h : s.lastSaved = some q) :
    (debouncedSave s q).state.timer = none ∧
    (run fid s [Event.submit q, Event.fire outcome]).calls = [] := by
  constructor
  · simp [debouncedSave, h]
  · simp [run, step, debouncedSave, timerFire, h]

/-- C4 witness: the no-op suppression theorem applied to a concrete reconciler
whose last acknowledged value is the resubmitted question. -/
theorem C4_noop_suppression_witness :
    (debouncedSave { initialState with lastSaved := some q4c } q4c).state.timer
        = none ∧
    (run "f1" { initialState with lastSaved := some q4c }
        [Event.submit q4c, Event.fire (GatewayOutcome.success q4c)]).calls
        = [] :=
  C4_noop_suppression "f1" { initialState with lastSaved := some q4c } q4c
    (GatewayOutcome.success q4c) rfl

/-- C5: when the gateway call of a scheduled save fails, the reconciler ends
with the failure message in error, isSaving false, lastSaved untouched, and no
onUpdate emitted (the optimistic value is not rolled back); timerFire is a
total function, so the rejection is absorbed rather than rethrown. -/
theorem C5_failure_surfaced (fid : String) (s : ReconcilerState)
    (q : Question) (msg : String) (ht : s.timer = some q)
    (hv : (validateQuestion q).isValid = true) :
    (timerFire fid s (GatewayOutcome.failure msg)).state.error = some msg ∧
    (timerFire fid s (GatewayOutcome.failure msg)).state.isSaving = false ∧
    (timerFire fid s (GatewayOutcome.failure msg)).state.lastSaved
        = s.lastSaved ∧
    (timerFire fid s (GatewayOutcome.failure msg)).updates = [] := by
  simp [timerFire, ht, hv]

/-- C5 witness: the failure theorem applied to a concrete pending save whose
gateway call rejects. -/
theorem C5_failure_surfaced_witness :
    (timerFire "f1" { initialState with timer := some q5c }
        (GatewayOutcome.failure "Failed to save question")).state.error
        = some "Failed to save question" ∧
    (timerFire "f1" { initialState with timer := some q5c }
        (GatewayOutcome.failure "Failed to save question")).state.isSaving
        = false ∧
    (timerFire "f1" { initialState with timer := some q5c }
        (GatewayOutcome.failure "Failed to save question")).state.lastSaved
        = ({ initialState with timer := some q5c } : ReconcilerState).lastSaved ∧
    (timerFire "f1" { initialState with timer := some q5c }
        (GatewayOutcome.failure "Failed to save question")).updates = [] :=
  C5_failure_surfaced "f1" { initialState with timer := some q5c } q5c
    "Failed to save question" rfl (by decide)

/-- C8: teardown clears the pending timer, emits no gateway call itself, and
no sequence of later timer fires can produce a gateway call for the discarded
question. -/
theorem C8_teardown_cancels (fid : String) (s : ReconcilerState)
    (posts : List Event)
    (h : ∀ ev ∈ posts, ∃ outcome, ev = Event.fire outcome) :
    (step fid s Event.teardown).state.timer = none ∧
    (step fid s Event.teardown).calls = [] ∧
    (run fid (step fid s Event.teardown).state posts).calls = [] := by
  refine ⟨rfl, rfl, ?_⟩
  exact (run_fires_idle fid (step fid s Event.teardown).state posts rfl h).1

/-- C8 witness: teardown of a reconciler with a concrete pending edit,
followed by a stray fire, yields no gateway call. -/
theorem C8_teardown_cancels_witness :
    (step "f1" { initialState with timer := some q8c }
        Event.teardown).state.timer = none ∧
    (step "f1" { initialState with timer := some q8c }
        Event.teardown).calls = [] ∧
    (run "f1" (step "f1" { initialState with timer := some q8c }
          Event.teardown).state
        [Event.fire (GatewayOutcome.success q8c)]).calls = [] :=
  C8_teardown_cancels "f1" { initialState with timer := some q8c }
    [Event.fire (GatewayOutcome.success q8c)]
    (by
      intro ev hev
      simp only [List.mem_singleton] at hev
      exact ⟨GatewayOutcome.success q8c, hev⟩)

/-- Decomposition of a successful store update: the store splits around the
first form whose id matches, and only that form changes — its questions gain
exactly the new question at the end and its updatedAt becomes now. -/
theorem saveQuestionList_eq_some (q : Question) (newId : String) (now : Nat)
    (formId : String) :
    ∀ store store', saveQuestionList q newId now formId store = some store' →
      ∃ pre f post, store = pre ++ f :: post ∧
        (∀ g ∈ pre, g.id ≠ formId) ∧ f.id = formId ∧
        store' = pre ++
          ({ f with questions := f.questions ++ [{ q with id := newId }],
                    updatedAt := now } :: post) := by
  intro store
  induction store with
  | nil => intro store' h; simp [saveQuestionList] at h
  | cons f rest ih =>
    intro store' h
    by_cases hf : f.id = formId
    · refine ⟨[], f, rest, by simp, by simp, hf, ?_⟩
      simp only [saveQuestionList, if_pos hf, Option.some.injEq] at h
      simp [← h]
    · simp only [saveQuestionList, if_neg hf] at h
      match hrec : saveQuestionList q newId now formId rest with
      | none => rw [hrec] at h; cases h
      | some rest' =>
        rw [hrec] at h
        obtain ⟨pre, g, post, hsplit, hpre, hg, hrest'⟩ := ih rest' hrec
        refine ⟨f :: pre, g, post, by simp [hsplit], ?_, hg, ?_⟩
        · intro g' hg'
          rcases List.mem_cons.mp hg' with h1 | h1
          · exact h1 ▸ hf
          · exact hpre g' h1
        · simp only [Option.some.injEq] at h
          simp [← h, hrest']

/-- A store with no matching form is left untouched. -/
theorem saveQuestionList_eq_none (q : Question) (newId : String) (now : Nat)
    (formId : String) :
    ∀ store, (∀ g ∈ store, g.id ≠ formId) →
      saveQuestionList q newId now formId store = none := by
  intro store
  induction store with
  | nil => intro _; simp [saveQuestionList]
  | cons f rest ih =>
    intro h
    have hf : f.id ≠ formId := h f (List.mem_cons_self f rest)
    simp only [saveQuestionList, if_neg hf]
    rw [ih (fun g hg => h g (List.mem_cons_of_mem _ hg))]

/-- C10: a successful saveQuestion changes only the addressed form — its
question list grows by exactly the submitted question under the freshly
generated id, appended at the end, with updatedAt refreshed; every form before
and after it in the store is unchanged, and the resolved value is that
persisted question.  When no form carries the id, the call rejects with Form
not found and the store is unchanged. -/
theorem C10_saveQuestion_frame (store : List Form) (formId : String)
    (q : Question) (newId : String) (now : Nat) :
    (∀ store' p,
      saveQuestion false store formId q newId now
          = { store := store', result := Except.ok p } →
      p = { q with id := newId } ∧
      ∃ pre f post, store = pre ++ f :: post ∧
        (∀ g ∈ pre, g.id ≠ formId) ∧ f.id = formId ∧
        store' = pre ++
          ({ f with questions := f.questions ++ [{ q with id := newId }],
                    updatedAt := now } :: post)) ∧
    ((∀ g ∈ store, g.id ≠ formId) →
      saveQuestion false store formId q newId now
          = { store := store, result := Except.error "Form not found" }) := by
  constructor
  · intro store' p h
    simp only [saveQuestion, if_neg (by simp : ¬False)] at h
    match hrec : saveQuestionList q newId now formId store with
    | none =>
      rw [hrec] at h
      cases h
    | some s' =>
      rw [hrec] at h
      have hs : s' = store' ∧ (Except.ok { q with id := newId } :
          Except String Question) = Except.ok p := by
        constructor
        · exact congrArg SaveOutcome.store h
        · exact congrArg SaveOutcome.result h
      obtain ⟨hs1, hs2⟩ := hs
      injection hs2 with hp
      exact ⟨hp.symm,
        hs1 ▸ saveQuestionList_eq_some q newId now formId store s' hrec⟩
  · intro h
    simp only [saveQuestion]
    rw [saveQuestionList_eq_none q newId now formId store h]
    simp

/-- C10 witness: appending a concrete question to the second of two stored
forms leaves the first form alone and appends under the server id. -/
theorem C10_saveQuestion_frame_witness :
    ({ q10c with id := "srv9" } : Question) = { q10c with id := "srv9" } ∧
    ∃ pre f post, store10c = pre ++ f :: post ∧
      (∀ g ∈ pre, g.id ≠ "fB") ∧ f.id = "fB" ∧
      (saveQuestion false store10c "fB" q10c "srv9" 7).store = pre ++
        ({ f with questions := f.questions ++ [{ q10c with id := "srv9" }],
                  updatedAt := 7 } :: post) :=
  (C10_saveQuestion_frame store10c "fB" q10c "srv9" 7).1
    (saveQuestion false store10c "fB" q10c "srv9" 7).store
    { q10c with id := "srv9" } rfl

/-- validateQuestion yields one of exactly three result records: valid, the
title-required rejection, or the min/max rejection. -/
theorem validateQuestion_shape (q : Question) :
    validateQuestion q = { isValid := true } ∨
    validateQuestion q
      = { isValid := false, error := some "Question title is required" } ∨
    validateQuestion q
      = { isValid := false,
          error := some "Minimum value cannot be greater than maximum value" } := by
  obtain ⟨i, ty, lab, ph, val, opts, v⟩ := q
  by_cases hb : isBlank lab
  · simp [validateQuestion, hb]
  · rcases ty with _ | t
    · simp [validateQuestion, hb]
    · cases t with
      | text => simp [validateQuestion, hb]
      | select => simp [validateQuestion, hb]
      | number =>
        rcases val with _ | vr
        · simp [validateQuestion, hb]
        · obtain ⟨req, minL, maxL, mn, mx, pat, par⟩ := vr
          rcases mn with _ | mn
          · simp [validateQuestion, hb]
          · rcases mx with _ | mx
            · simp [validateQuestion, hb]
            · by_cases hcmp : mn > mx
              · simp [validateQuestion, hb, hcmp]
              · simp [validateQuestion, hb, hcmp]

/-- An invalid verdict of validateQuestion always carries a message, so the
code fallback to the generic Invalid question string is never taken. -/
theorem validateQuestion_invalid_error (q : Question)
    (h : (validateQuestion q).isValid = false) :
    some ((validateQuestion q).error.getD "Invalid question")
      = (validateQuestion q).error := by
  rcases validateQuestion_shape q with hs | hs | hs
  · rw [hs] at h
    simp at h
  · rw [hs]
    rfl
  · rw [hs]
    rfl

/-- C1 counterexample: a whitespace-only-label question is rejected by
validateQuestion, yet submitting it through debouncedSave of
src/hooks/useAutoSave.ts DOES schedule a debounce timer — the claim that no
timer is scheduled for an invalid edit is false there. -/
theorem C1_counterexample :
    (validateQuestion q1c).isValid = false ∧
    (debouncedSave initialState q1c).state.timer = some q1c := by
  decide

/-- C1 amended: for an edit rejected by validateQuestion, the primary hook
never issues a gateway call for that edit, but it does schedule a debounce
timer; the rejection reason lands in error only when the timer fires (and the
edit was not suppressed by the no-op check).  In the FormRenderer variant,
validation does gate scheduling: no timer is scheduled and the reason is
recorded immediately. -/
theorem C1_invalid_never_persisted (fid : String) (s : ReconcilerState)
    (q : Question) (outcome : GatewayOutcome)
    (hv : (validateQuestion q).isValid = false) :
    (run fid s [Event.submit q, Event.fire outcome]).calls = [] ∧
    (s.lastSaved ≠ some q →
      (debouncedSave s q).state.timer = some q ∧
      (run fid s [Event.submit q, Event.fire outcome]).state.error
        = (validateQuestion q).error) ∧
    ((validateQuestionRenderer q).isValid = false →
      (debouncedSaveRenderer s q).state.timer = none ∧
      (debouncedSaveRenderer s q).calls = []) := by
  refine ⟨?_, ?_, ?_⟩
  · by_cases h : s.lastSaved = some q
    · simp [run, step, debouncedSave, timerFire, h]
    · simp [run, step, debouncedSave, timerFire, h, hv]
  · intro h
    refine ⟨by simp [debouncedSave, h], ?_⟩
    have hrun : (run fid s [Event.submit q, Event.fire outcome]).state.error
        = some ((validateQuestion q).error.getD "Invalid question") := by
      simp [run, step, debouncedSave, timerFire, h, hv]
    rw [hrun, validateQuestion_invalid_error q hv]
  · intro hr
    constructor
    · simp [debouncedSaveRenderer, hr]
    · simp [debouncedSaveRenderer, hr]

/-- C1 witness: the amended theorem at the concrete whitespace-label edit,
from the fresh reconciler state. -/
theorem C1_invalid_never_persisted_witness :
    (run "f1" initialState
        [Event.submit q1c, Event.fire (GatewayOutcome.success q1c)]).calls
        = [] ∧
    (debouncedSave initialState q1c).state.timer = some q1c ∧
    (run "f1" initialState
        [Event.submit q1c, Event.fire (GatewayOutcome.success q1c)]).state.error
        = (validateQuestion q1c).error ∧
    (debouncedSaveRenderer initialState q1c).state.timer = none := by
  have h := C1_invalid_never_persisted "f1" initialState q1c
    (GatewayOutcome.success q1c) (by decide)
  exact ⟨h.1, (h.2.1 (by decide)).1, (h.2.1 (by decide)).2,
    (h.2.2 (by decide)).1⟩

/-- C2 counterexample: the gateway resolves the save of q2c with the question
under its server-assigned id, but the reconciler records the SUBMITTED
question as its last acknowledged value, so that value differs from the
persisted result the gateway returned. -/
theorem C2_counterexample :
    (saveQuestion false store2c "f1" q2c "srv1" 5).result = Except.ok p2c ∧
    (timerFire "f1" { initialState with timer := some q2c }
        (GatewayOutcome.success p2c)).state.lastSaved = some q2c ∧
    (timerFire "f1" { initialState with timer := some q2c }
        (GatewayOutcome.success p2c)).state.lastSaved ≠ some p2c := by
  refine ⟨rfl, by decide, by decide⟩

/-- C2 amended: after a successful scheduled save, isSaving is false, error is
cleared, and the last acknowledged value equals the SUBMITTED question — the
resolved persisted result (with its server-assigned id) is discarded by the
hook. -/
theorem C2_success_acknowledges_submitted (fid : String)
    (s : ReconcilerState) (q p : Question) (ht : s.timer = some q)
    (hv : (validateQuestion q).isValid = true) :
    (timerFire fid s (GatewayOutcome.success p)).state.isSaving = false ∧
    (timerFire fid s (GatewayOutcome.success p)).state.error = none ∧
    (timerFire fid s (GatewayOutcome.success p)).state.lastSaved = some q := by
  simp [timerFire, ht, hv]

/-- C2 witness: the amended success theorem at the concrete pending edit and
the gateway resolved value. -/
theorem C2_success_acknowledges_submitted_witness :
    (timerFire "f1" { initialState with timer := some q2c }
        (GatewayOutcome.success p2c)).state.isSaving = false ∧
    (timerFire "f1" { initialState with timer := some q2c }
        (GatewayOutcome.success p2c)).state.error = none ∧
    (timerFire "f1" { initialState with timer := some q2c }
        (GatewayOutcome.success p2c)).state.lastSaved = some q2c :=
  C2_success_acknowledges_submitted "f1"
    { initialState with timer := some q2c } q2c p2c rfl (by decide)

/-- C3 counterexample: two rapid edits where the second has a blank label
yield ZERO gateway calls, not exactly one — the claim that every such pair
produces exactly one call carrying the second edit is false. -/
theorem C3_counterexample :
    (run "f1" initialState
        [Event.submit e3a, Event.submit e3b,
         Event.fire (GatewayOutcome.success e3b)]).calls = [] := by
  decide

/-- C3 amended: for any pair of edits inside one debounce window, at most one
gateway call results and any call carries the second edit; the first edit is
never persisted.  Exactly one call results when the second edit passes
validation and is not suppressed as a no-op. -/
theorem C3_debounce_coalesces (fid : String) (s : ReconcilerState)
    (e1 e2 : Question) (outcome : GatewayOutcome) :
    (run fid s [Event.submit e1, Event.submit e2,
        Event.fire outcome]).calls.length ≤ 1 ∧
    (∀ c ∈ (run fid s [Event.submit e1, Event.submit e2,
        Event.fire outcome]).calls, c.question = e2) ∧
    ((validateQuestion e2).isValid = true → s.lastSaved ≠ some e2 →
      (run fid s [Event.submit e1, Event.submit e2,
          Event.fire outcome]).calls = [{ formId := fid, question := e2 }]) := by
  by_cases h2 : s.lastSaved = some e2
  · by_cases h1 : s.lastSaved = some e1
    · have he : e1 = e2 := by injection h1.symm.trans h2
      subst he
      simp [run, step, debouncedSave, timerFire, h1]
    · have h1x : some e2 ≠ some e1 := fun hc => h1 (h2.trans hc)
      simp [run, step, debouncedSave, timerFire, h1, h2, h1x]
  · by_cases h1 : s.lastSaved = some e1
    · have h2x : some e1 ≠ some e2 := fun hc => h2 (h1.trans hc)
      by_cases hv : (validateQuestion e2).isValid = true
      · cases outcome <;>
          simp [run, step, debouncedSave, timerFire, h1, h2, h2x, hv]
      · simp [run, step, debouncedSave, timerFire, h1, h2, h2x, hv]
    · by_cases hv : (validateQuestion e2).isValid = true
      · cases outcome <;>
          simp [run, step, debouncedSave, timerFire, h1, h2, hv]
      · simp [run, step, debouncedSave, timerFire, h1, h2, hv]

/-- C3 witness: a concrete rapid pair whose second edit is valid produces
exactly the one call carrying the second edit. -/
theorem C3_debounce_coalesces_witness :
    (run "f1" initialState
        [Event.submit e3a, Event.submit e3w,
         Event.fire (GatewayOutcome.success e3w)]).calls
      = [{ formId := "f1", question := e3w }] :=
  (C3_debounce_coalesces "f1" initialState e3a e3w
      (GatewayOutcome.success e3w)).2.2 (by decide) (by decide)

/-- The hook validator is invalid exactly on a blank label or a number
question carrying both bounds out of order; in particular an unset type and
all select shapes pass it. -/
theorem validateQuestion_isValid_false_iff (q : Question) :
    (validateQuestion q).isValid = false ↔
      (isBlank q.label = true ∨
        (q.type = some QuestionType.number ∧ ∃ vr mn mx,
          q.validation = some vr ∧ vr.min = some mn ∧ vr.max = some mx ∧
          mn > mx)) := by
  obtain ⟨i, ty, lab, ph, val, opts, v⟩ := q
  by_cases hb : isBlank lab
  · simp [validateQuestion, hb]
  · rcases ty with _ | t
    · simp [validateQuestion, hb]
    · cases t with
      | text => simp [validateQuestion, hb]
      | select => simp [validateQuestion, hb]
      | number =>
        rcases val with _ | vr
        · simp [validateQuestion, hb]
        · obtain ⟨req, minL, maxL, mn, mx, pat, par⟩ := vr
          rcases mn with _ | mn
          · simp [validateQuestion, hb]
          · rcases mx with _ | mx
            · simp [validateQuestion, hb]
            · by_cases hcmp : mn > mx
              · simp [validateQuestion, hb, hcmp]
              · simp [validateQuestion, hb, hcmp]

/-- The renderer-variant validator is invalid exactly on a blank label, an
out-of-order number bound pair, or a select question with missing, empty, or
partially blank options; an unset type still passes it. -/
theorem validateQuestionRenderer_isValid_false_iff (q : Question) :
    (validateQuestionRenderer q).isValid = false ↔
      (isBlank q.label = true ∨
        (q.type = some QuestionType.number ∧ ∃ vr mn mx,
          q.validation = some vr ∧ vr.min = some mn ∧ vr.max = some mx ∧
          mn > mx) ∨
        (q.type = some QuestionType.select ∧
          (q.options = none ∨ q.options = some [] ∨
            ∃ opts o, q.options = some opts ∧ o ∈ opts ∧
              (isBlank o.label = true ∨ isBlank o.value = true)))) := by
  obtain ⟨i, ty, lab, ph, val, opts, v⟩ := q
  by_cases hb : isBlank lab
  · simp [validateQuestionRenderer, hb]
  · rcases ty with _ | t
    · simp [validateQuestionRenderer, hb]
    · cases t with
      | text => simp [validateQuestionRenderer, hb]
      | number =>
        rcases val with _ | vr
        · simp [validateQuestionRenderer, hb]
        · obtain ⟨req, minL, maxL, mn, mx, pat, par⟩ := vr
          rcases mn with _ | mn
          · simp [validateQuestionRenderer, hb]
          · rcases mx with _ | mx
            · simp [validateQuestionRenderer, hb]
            · by_cases hcmp : mn > mx
              · simp [validateQuestionRenderer, hb, hcmp]
              · simp [validateQuestionRenderer, hb, hcmp]
      | select =>
        rcases opts with _ | ol
        · simp [validateQuestionRenderer, hb]
        · rcases ol with _ | ⟨o, os⟩
          · simp [validateQuestionRenderer, hb]
          · by_cases hany :
              (o :: os).any (fun x => isBlank x.label || isBlank x.value)
                = true
            · have hres : validateQuestionRenderer
                  ⟨i, some QuestionType.select, lab, ph, val,
                    some (o :: os), v⟩
                  = { isValid := false,
                      error := some "All options must have both label and value" } := by
                simp [validateQuestionRenderer, hb, hany]
              rw [hres]
              constructor
              · intro _
                right; right
                refine ⟨rfl, ?_⟩
                right; right
                obtain ⟨x, hx, hblank⟩ := List.any_eq_true.mp hany
                exact ⟨o :: os, x, rfl, hx,
                  (Bool.or_eq_true _ _).mp hblank⟩
              · intro _
                rfl
            · have hres : validateQuestionRenderer
                  ⟨i, some QuestionType.select, lab, ph, val,
                    some (o :: os), v⟩ = { isValid := true } := by
                simp [validateQuestionRenderer, hb, hany]
              rw [hres]
              constructor
              · intro hfalse
                simp at hfalse
              · intro hrhs
                exfalso
                rcases hrhs with hb2 | ⟨hty, _⟩ | ⟨_, hoptsc⟩
                · exact hb hb2
                · simp at hty
                · rcases hoptsc with hnone | hnil |
                    ⟨opts2, x, hsome, hxmem, hxblank⟩
                  · simp at hnone
                  · simp at hnil
                  · injection hsome with hsome
                    subst hsome
                    apply hany
                    refine List.any_eq_true.mpr ⟨x, hxmem, ?_⟩
                    rcases hxblank with hxb | hxb <;> simp [hxb]

/-- C6 counterexample: a question whose type is unset but whose label is fine
is accepted by validateQuestion, although the claim requires a type-required
rejection for it. -/
theorem C6_counterexample :
    q6c.type = none ∧ isBlank q6c.label = false ∧
    (validateQuestion q6c).isValid = true := by
  decide

/-- C6 amended: the hook validateQuestion rejects exactly a blank label or a
number question with both bounds present and min exceeding max; the
FormRenderer variant additionally rejects select questions with missing,
empty, or partially blank options; NEITHER rejects an unset type (that check
lives separately in validateQuestionType of QuestionBuilder). -/
theorem C6_validator_characterized (q : Question) :
    ((validateQuestion q).isValid = false ↔
      (isBlank q.label = true ∨
        (q.type = some QuestionType.number ∧ ∃ vr mn mx,
          q.validation = some vr ∧ vr.min = some mn ∧ vr.max = some mx ∧
          mn > mx))) ∧
    ((validateQuestionRenderer q).isValid = false ↔
      (isBlank q.label = true ∨
        (q.type = some QuestionType.number ∧ ∃ vr mn mx,
          q.validation = some vr ∧ vr.min = some mn ∧ vr.max = some mx ∧
          mn > mx) ∨
        (q.type = some QuestionType.select ∧
          (q.options = none ∨ q.options = some [] ∨
            ∃ opts o, q.options = some opts ∧ o ∈ opts ∧
              (isBlank o.label = true ∨ isBlank o.value = true))))) :=
  ⟨validateQuestion_isValid_false_iff q,
   validateQuestionRenderer_isValid_false_iff q⟩

/-- C7 counterexample: clearing the title through handleChange of
QuestionBuilder propagates NOTHING to the owning editor — no onUpdate is
emitted synchronously, and none is emitted when the 500ms update timer fires,
because the title validation gates the propagation. -/
theorem C7_counterexample :
    (handleChange b7c (QField.label "")).updates = [] ∧
    (builderTimerFire (handleChange b7c (QField.label "")).state
        initialState).2.updates = [] := by
  decide

/-- C7 amended: the reconciler entry point debouncedSave does propagate the
edited question to the owner exactly once, unconditionally, even when it is
invalid; but edits made through handleChange of QuestionBuilder are never
propagated synchronously — when the updated question fails the title
validation, or passes it but fails the type validation, the propagation is
suppressed entirely, and when both validations pass the edit is propagated
exactly once, at the moment the 500ms update timer fires. -/
theorem C7_propagation (s : ReconcilerState) (q : Question)
    (b : BuilderState) (f : QField) (r : ReconcilerState) :
    (debouncedSave s q).updates = [q] ∧
    (handleChange b f).updates = [] ∧
    ((validateTitle (applyField b.localQuestion f).label).isValid = false →
      (builderTimerFire (handleChange b f).state r).2.updates = []) ∧
    ((validateTitle (applyField b.localQuestion f).label).isValid = true →
      (validateQuestionType (applyField b.localQuestion f).type).isValid
          = false →
      (builderTimerFire (handleChange b f).state r).2.updates = []) ∧
    ((validateTitle (applyField b.localQuestion f).label).isValid = true →
      (validateQuestionType (applyField b.localQuestion f).type).isValid
          = true →
      (builderTimerFire (handleChange b f).state r).2.updates
        = [applyField b.localQuestion f]) := by
  have htimer : (handleChange b f).state.updateTimer
      = some (applyField b.localQuestion f) := rfl
  refine ⟨?_, rfl, ?_, ?_, ?_⟩
  · by_cases h : s.lastSaved = some q <;> simp [debouncedSave, h]
  · intro ht
    simp [builderTimerFire, htimer, ht]
  · intro ht hy
    simp [builderTimerFire, htimer, ht, hy]
  · intro ht hy
    by_cases h : r.lastSaved = some (applyField b.localQuestion f) <;>
      simp [builderTimerFire, htimer, ht, hy, debouncedSave, h]

/-- C7 witness: the amended theorem at concrete edits exercising all three
paths of the 500ms callback — a blank-title edit (suppressed), an edit on a
type-unset question (title passes, type gate suppresses), and a valid retitle
(propagated exactly once at the fire). -/
theorem C7_propagation_witness :
    (debouncedSave initialState q1c).updates = [q1c] ∧
    (handleChange b7c (QField.label " ")).updates = [] ∧
    (builderTimerFire (handleChange b7c (QField.label " ")).state
        initialState).2.updates = [] ∧
    (builderTimerFire
        (handleChange b7d (QField.placeholder (some "h"))).state
        initialState).2.updates = [] ∧
    (builderTimerFire (handleChange b7c (QField.label "Hi")).state
        initialState).2.updates
      = [applyField b7c.localQuestion (QField.label "Hi")] := by
  have h1 := C7_propagation initialState q1c b7c (QField.label " ")
    initialState
  have h2 := C7_propagation initialState q1c b7d
    (QField.placeholder (some "h")) initialState
  have h3 := C7_propagation initialState q1c b7c (QField.label "Hi")
    initialState
  exact ⟨h1.1, h1.2.1, h1.2.2.1 (by decide),
    h2.2.2.2.1 (by decide) (by decide),
    h3.2.2.2.2 (by decide) (by decide)⟩

/-- C9 counterexample: the derived view drops a type-unset question that
validateQuestion accepts, so the view is NOT the subsequence of questions
passing validateQuestion. -/
theorem C9_counterexample :
    (getValidForm f9c).questions ≠
      f9c.questions.filter (fun q => (validateQuestion q).isValid) := by
  decide

/-- C9 amended: the derived read-only view keeps every non-question field of
the form, and its questions are exactly the order-preserving subsequence
passing isQuestionValid — which agrees with validateQuestion on questions
whose type is set, but additionally drops every type-unset question. -/
theorem C9_valid_view (f : Form) :
    (getValidForm f).id = f.id ∧
    (getValidForm f).title = f.title ∧
    (getValidForm f).createdAt = f.createdAt ∧
    (getValidForm f).updatedAt = f.updatedAt ∧
    List.Sublist (getValidForm f).questions f.questions ∧
    (getValidForm f).questions = f.questions.filter isQuestionValid ∧
    ∀ q : Question, isQuestionValid q
        = ((validateQuestion q).isValid && q.type.isSome) := by
  refine ⟨rfl, rfl, rfl, rfl, List.filter_sublist _, rfl, ?_⟩
  intro q
  obtain ⟨i, ty, lab, ph, val, opts, v⟩ := q
  by_cases hb : isBlank lab
  · simp [isQuestionValid, validateQuestion, hb]
  · rcases ty with _ | t
    · simp [isQuestionValid, validateQuestion, hb]
    · cases t with
      | text => simp [isQuestionValid, validateQuestion, hb]
      | select => simp [isQuestionValid, validateQuestion, hb]
      | number =>
        rcases val with _ | vr
        · simp [isQuestionValid, validateQuestion, hb]
        · obtain ⟨req, minL, maxL, mn, mx, pat, par⟩ := vr
          rcases mn with _ | mn
          · simp [isQuestionValid, validateQuestion, hb]
          · rcases mx with _ | mx
            · simp [isQuestionValid, validateQuestion, hb]
            · by_cases hcmp : mn > mx
              · simp [isQuestionValid, validateQuestion, hb, hcmp,
                  not_le.mpr hcmp]
              · simp [isQuestionValid, validateQuestion, hb, hcmp,
                  not_lt.mp hcmp]

end FirstWork
